import Mathlib

/-!
Shallow embedding of the rltf repository excerpt:
  - src/rltf/monitoring/monitor.py  (class Monitor)
  - src/rltf/models/__init__.py     (package-level model registry)

The Monitor is modelled as a pure state machine.  Calls to the
StatsRecorder collaborator (whose implementation is outside the excerpt)
and to the wrapped gym environment are recorded as events in a trace, so
that call ordering can be stated; the fields of the collaborator that the
Monitor reads or writes (mode, train_steps, ...) are carried in the state.
Python exceptions become explicit error values; since a Python `raise`
before any attribute assignment leaves the object unchanged, operations
that can raise before mutating return the unchanged state next to the
error.
-/

namespace Rltf

/-- Errors raised by the monitor code: gym error.ResetNeeded and the
generic gym error.Error. -/
inductive MonError
  | resetNeeded
  | genericError
deriving Repr, DecidableEq

/-- The 4-tuple returned by env.step: (obs, reward, done, info).
Observations and info are abstracted as naturals, rewards as integers. -/
structure EnvResult where
  obs : Nat
  reward : Int
  done : Bool
  info : Nat
deriving Repr, DecidableEq

/-- State of the StatsRecorder collaborator, as far as Monitor reads or
writes it (monitor.py lines 55, 125, 259-285).  Its own dynamics are not
part of the excerpt; mutating calls on it appear as trace events. -/
structure StatsRecorderState where
  logDir : String
  mode : Option String
  trainSteps : Nat
  evalSteps : Nat
  trainEpRews : List Int
  evalEpRews : List Int
  trainEpLens : List Nat
  evalEpLens : List Nat
  episodeId : Nat
  closed : Bool
deriving Repr, DecidableEq

/-- State of a gym VideoRecorder, as far as Monitor uses it: constructor
arguments (monitor.py lines 226-231) plus the `broken` flag that gym sets
when encoding fails; gym defines `functional` as enabled and not broken. -/
structure VideoRecorderState where
  path : String
  metadataPath : String
  episodeId : Nat
  enabled : Bool
  broken : Bool
deriving Repr, DecidableEq

/-- The env_info dict written into the manifest (monitor.py lines 244-249). -/
structure EnvInfo where
  gymVersion : String
  envId : String
deriving Repr, DecidableEq

/-- The manifest dict written by Monitor.save (monitor.py lines 135-139). -/
structure Manifest where
  stats : String
  videos : List (String × String)
  envInfo : EnvInfo
deriving Repr, DecidableEq

/-- Trace events: calls the Monitor makes on its collaborators. -/
inductive Event
  | statsBeforeStep (action : Nat)
  | envStep (action : Nat)
  | statsAfterStep (obs : Nat) (reward : Int) (done : Bool) (info : Nat)
  | videoCaptureFrame
  | statsBeforeReset
  | envReset
  | statsAfterReset (obs : Nat)
  | videoClose
  | statsSave
  | statsClose
  | writeManifest (path : String) (data : Manifest)
  | unregister
deriving Repr, DecidableEq

/-- Monitor state: the attributes set in Monitor.__init__
(monitor.py lines 41-64). -/
structure MonitorState where
  enabled : Bool
  registered : Bool
  videos : List (String × String)
  mode : Option String
  logDir : String
  done : Option Bool
  envStarted : Bool
  envId : String
  videoCallable : Nat → Bool
  statsRecorder : StatsRecorderState
  videoRecorder : Option VideoRecorderState

/-- Python truthiness of self.done, which is None initially and a Bool
after a step. -/
def doneTruthy : Option Bool → Bool
  | none => false
  | some b => b

/-- os.path.basename for POSIX paths: the part after the last slash. -/
def basename (p : String) : String :=
  String.mk ((p.data.reverse.takeWhile (fun c => c != '/')).reverse)

/-- os.path.isabs for POSIX paths: the path starts with a slash. -/
def isAbsPath (p : String) : Bool :=
  match p.data with
  | [] => false
  | c :: _ => c == '/'

/-- Stands for the imported gym.__version__ (monitor.py line 10). -/
def gymVersionStr : String := "0.9.6"

/-- The default video schedule installed when video_callable is None
(monitor.py line 70): every 1000th episode. -/
def defaultVideoCallable : Nat → Bool := fun eId => eId % 1000 == 0

/-- The possible shapes of the video_callable constructor argument:
None, False, a callable, or anything else. -/
inductive VideoCallableArg
  | vcNone
  | vcFalse
  | vcCallable (f : Nat → Bool)
  | vcOther

/-- Monitor._get_video_callable (monitor.py lines 67-76). -/
def getVideoCallable : VideoCallableArg → Except MonError (Nat → Bool)
  | .vcNone => .ok defaultVideoCallable
  | .vcFalse => .ok (fun _ => false)
  | .vcCallable f => .ok f
  | .vcOther => .error .genericError

/-- Fresh StatsRecorder state created in __init__ (monitor.py line 55)
with the conventional empty initial statistics. -/
def initStatsRecorder (logDir : String) : StatsRecorderState :=
  { logDir := logDir, mode := none, trainSteps := 0, evalSteps := 0,
    trainEpRews := [], evalEpRews := [], trainEpLens := [], evalEpLens := [],
    episodeId := 0, closed := false }

/-- The mode property setter (monitor.py lines 119-126): raises
error.Error before any assignment when the mode is neither t nor e,
otherwise assigns both _mode and stats_recorder.mode. -/
def modeSet (s : MonitorState) (m : String) : MonitorState × Option MonError :=
  if m != "t" && m != "e" then (s, some .genericError)
  else
    ({ s with mode := some m,
              statsRecorder := { s.statsRecorder with mode := some m } }, none)

/-- Monitor.__init__ (monitor.py lines 30-64): processes video_callable
(may raise), creates the stats recorder, runs the mode setter (may
raise), registers with the closer and finally sets _enabled. -/
def monitorInit (logDir : String) (vc : VideoCallableArg) (m : String) (envId : String) :
    Except MonError MonitorState :=
  match getVideoCallable vc with
  | .error e => .error e
  | .ok f =>
    let s0 : MonitorState :=
      { enabled := false, registered := false, videos := [], mode := none,
        logDir := logDir, done := none, envStarted := false, envId := envId,
        videoCallable := f,
        statsRecorder := initStatsRecorder (logDir ++ "/data"),
        videoRecorder := none }
    match modeSet s0 m with
    | (_, some e) => .error e
    | (s1, none) => .ok { s1 with registered := true, enabled := true }

/-- Monitor._before_step (monitor.py lines 164-178): no-op when
disabled; raises ResetNeeded when done is truthy or the env was never
reset; otherwise calls stats_recorder.before_step(action). -/
def monBeforeStep (s : MonitorState) (action : Nat) : Except MonError (List Event) :=
  if !s.enabled then .ok []
  else if doneTruthy s.done then .error .resetNeeded
  else if !s.envStarted then .error .resetNeeded
  else .ok [.statsBeforeStep action]

/-- Monitor._after_step (monitor.py lines 181-190): when enabled,
records stats, captures a video frame, stores done; returns done. -/
def monAfterStep (s : MonitorState) (obs : Nat) (reward : Int) (done : Bool) (info : Nat) :
    MonitorState × List Event × Bool :=
  if !s.enabled then (s, [], done)
  else ({ s with done := some done },
        [.statsAfterStep obs reward done info, .videoCaptureFrame], done)

/-- Monitor.step (monitor.py lines 101-105): _before_step, env.step,
_after_step; returns the (obs, reward, done, info) tuple.  The result of
env.step is supplied as an argument; its invocation is the envStep
event.  On a raise from _before_step the state is unchanged and env.step
is never called. -/
def monStep (s : MonitorState) (action : Nat) (env : EnvResult) :
    MonitorState × List Event × Except MonError EnvResult :=
  match monBeforeStep s action with
  | .error e => (s, [], .error e)
  | .ok evs1 =>
    let r := monAfterStep s env.obs env.reward env.done env.info
    (r.1, evs1 ++ [.envStep action] ++ r.2.1,
     .ok { obs := env.obs, reward := env.reward, done := r.2.2, info := env.info })

/-- gym VideoRecorder.functional: enabled and not broken. -/
def functionalVR (vr : VideoRecorderState) : Bool := vr.enabled && !vr.broken

/-- Monitor._close_video_recorder (monitor.py lines 235-241): closes the
recorder and appends its paths to self.videos iff it was functional. -/
def closeVideoRec (s : MonitorState) (vr : VideoRecorderState) : MonitorState × List Event :=
  (if functionalVR vr then
     { s with videos := s.videos ++ [(vr.path, vr.metadataPath)] }
   else s,
   [.videoClose])

/-- Zero-padding of the episode id in the video file name
(Python format spec 06 in monitor.py line 222). -/
def format06 (n : Nat) : String :=
  let s := toString n
  String.mk (List.replicate (6 - s.length) '0') ++ s

/-- The video file base name (monitor.py line 222). -/
def videoFileName (mode : Option String) (epId : Nat) : String :=
  "openaigym_video_" ++ (if mode = some "t" then "train" else "eval") ++
    "_episode_" ++ format06 epId

/-- Monitor.get_episode_id (monitor.py lines 266-267): delegates to the
stats recorder. -/
def getEpisodeId (s : MonitorState) : Nat := s.statsRecorder.episodeId

/-- Monitor.reset_video_recorder (monitor.py lines 212-232): closes any
existing recorder, then creates a new VideoRecorder whose enabled flag
is video_callable applied to the current episode id, and captures a
frame. -/
def resetVideoRecorder (s : MonitorState) : MonitorState × List Event :=
  let r := match s.videoRecorder with
    | some vr => closeVideoRec s vr
    | none => (s, [])
  let s1 := r.1
  let epId := getEpisodeId s1
  let base := s1.logDir ++ "/" ++ videoFileName s1.mode epId
  let vr : VideoRecorderState :=
    { path := base ++ ".mp4", metadataPath := base ++ ".meta.json",
      episodeId := epId, enabled := s1.videoCallable epId, broken := false }
  ({ s1 with videoRecorder := some vr }, r.2 ++ [.videoCaptureFrame])

/-- Monitor._before_reset (monitor.py lines 193-196): when enabled,
calls stats_recorder.before_reset(). -/
def monBeforeReset (s : MonitorState) : List Event :=
  if !s.enabled then [] else [.statsBeforeReset]

/-- Monitor._after_reset (monitor.py lines 199-209): when enabled, calls
stats_recorder.after_reset(obs), sets env_started and clears done, then
resets the video recorder. -/
def monAfterReset (s : MonitorState) (obs : Nat) : MonitorState × List Event :=
  if !s.enabled then (s, [])
  else
    let s1 := { s with envStarted := true, done := some false }
    let r := resetVideoRecorder s1
    (r.1, [.statsAfterReset obs] ++ r.2)

/-- Monitor.reset (monitor.py lines 108-112): _before_reset, env.reset,
_after_reset; returns the observation produced by env.reset, which is
supplied as an argument. -/
def monReset (s : MonitorState) (obs : Nat) : MonitorState × List Event × Nat :=
  let evs1 := monBeforeReset s
  let r := monAfterReset s obs
  (r.1, evs1 ++ [.envReset] ++ r.2, obs)

/-- The manifest data built by Monitor.save (monitor.py lines 135-139). -/
def mkManifest (s : MonitorState) : Manifest :=
  { stats := "./" ++ basename s.statsRecorder.logDir ++ "/",
    videos := s.videos.map (fun p => (basename p.1, basename p.2)),
    envInfo := { gymVersion := gymVersionStr, envId := s.envId } }

/-- Monitor.save (monitor.py lines 129-141): saves the stats recorder
data first, then atomically writes the manifest JSON in log_dir. -/
def monSave (s : MonitorState) : MonitorState × List Event :=
  (s, [.statsSave,
       .writeManifest (s.logDir ++ "/rltf.monitor.manifest.json") (mkManifest s)])

/-- Monitor.close (monitor.py lines 144-161): returns immediately when
already disabled; otherwise saves, closes the stats recorder, closes an
open video recorder, unregisters from the closer and disables itself. -/
def monClose (s : MonitorState) : MonitorState × List Event :=
  if !s.enabled then (s, [])
  else
    let r1 := monSave s
    let s2 := { r1.1 with statsRecorder := { r1.1.statsRecorder with closed := true } }
    let r2 := match s2.videoRecorder with
      | some vr => closeVideoRec s2 vr
      | none => (s2, [])
    let s4 := { r2.1 with registered := false, enabled := false }
    (s4, r1.2 ++ [.statsClose] ++ r2.2 ++ [.unregister])

/-- Monitor.__del__ (monitor.py lines 252-254): just calls close. -/
def monDel (s : MonitorState) : MonitorState × List Event := monClose s

/-- Monitor.get_total_steps (monitor.py lines 257-263). -/
def getTotalSteps (s : MonitorState) (m : String) : Except MonError Nat :=
  if m = "t" then .ok s.statsRecorder.trainSteps
  else if m = "e" then .ok s.statsRecorder.evalSteps
  else .error .genericError

/-- Monitor.get_episode_rewards (monitor.py lines 270-276). -/
def getEpisodeRewards (s : MonitorState) (m : String) : Except MonError (List Int) :=
  if m = "t" then .ok s.statsRecorder.trainEpRews
  else if m = "e" then .ok s.statsRecorder.evalEpRews
  else .error .genericError

/-- Monitor.get_episode_lens (monitor.py lines 279-285). -/
def getEpisodeLens (s : MonitorState) (m : String) : Except MonError (List Nat) :=
  if m = "t" then .ok s.statsRecorder.trainEpLens
  else if m = "e" then .ok s.statsRecorder.evalEpLens
  else .error .genericError

/-- The names exposed by src/rltf/models package init, in import order. -/
def rltfModels : List String :=
  ["BLR", "BDQN", "BDQN_IDS", "BDQN_UCB",
   "BstrapDQN", "BstrapDQN_IDS", "BstrapDQN_UCB", "BstrapDQN_Ensemble",
   "BstrapQRDQN", "BstrapQRDQN_IDS",
   "C51", "DDPG", "DDQN", "BaseDQN", "DQN", "Model", "QRDQN", "QRDQNTS", "QRDDPG"]

/-- A monitor whose video schedule never fires and whose current
recorder, if any, is disabled: no video can be recorded from here. -/
def videoOff (t : MonitorState) : Prop :=
  (∀ n, t.videoCallable n = false) ∧
  ∀ vr, t.videoRecorder = some vr → vr.enabled = false

/-! Helper lemmas -/

theorem mem_basename_ne_slash {p : String} {c : Char} (h : c ∈ (basename p).data) :
    c ≠ '/' := by
  have h2 : c ∈ p.data.reverse.takeWhile (fun c => c != '/') := List.mem_reverse.mp h
  have h3 := List.mem_takeWhile_imp h2
  simpa using h3

theorem isAbsPath_basename (p : String) : isAbsPath (basename p) = false := by
  unfold isAbsPath
  split
  · rfl
  · next c l h =>
    have hc : c ∈ (basename p).data := by rw [h]; exact List.mem_cons_self _ _
    have := mem_basename_ne_slash hc
    simpa using this

theorem isAbsPath_dotSlash (x y : String) : isAbsPath ("./" ++ x ++ y) = false := by
  unfold isAbsPath
  rw [String.data_append, String.data_append]
  rfl

theorem resetVideoRecorder_shape (s : MonitorState) :
    ∃ vids : List (String × String),
      (resetVideoRecorder s).1 =
        { s with
          videos := vids,
          videoRecorder := some
            { path := s.logDir ++ "/" ++ videoFileName s.mode (getEpisodeId s) ++ ".mp4",
              metadataPath :=
                s.logDir ++ "/" ++ videoFileName s.mode (getEpisodeId s) ++ ".meta.json",
              episodeId := getEpisodeId s,
              enabled := s.videoCallable (getEpisodeId s), broken := false } } := by
  unfold resetVideoRecorder closeVideoRec
  cases hv : s.videoRecorder with
  | none => exact ⟨s.videos, rfl⟩
  | some vr =>
    dsimp only
    split
    · exact ⟨_, rfl⟩
    · exact ⟨s.videos, rfl⟩

theorem resetVideoRecorder_videos_off (s : MonitorState)
    (h : ∀ vr, s.videoRecorder = some vr → vr.enabled = false) :
    (resetVideoRecorder s).1.videos = s.videos := by
  unfold resetVideoRecorder closeVideoRec
  cases hv : s.videoRecorder with
  | none => rfl
  | some vr =>
    have he := h vr hv
    simp [functionalVR, he]

theorem monAfterStep_done (s : MonitorState) (o : Nat) (r : Int) (d : Bool) (i : Nat) :
    (monAfterStep s o r d i).2.2 = d := by
  unfold monAfterStep; split <;> rfl

theorem monStep_videos (s : MonitorState) (a : Nat) (env : EnvResult) :
    (monStep s a env).1.videos = s.videos := by
  unfold monStep
  cases monBeforeStep s a with
  | error e => rfl
  | ok evs =>
    dsimp only
    unfold monAfterStep
    split <;> rfl

theorem modeSet_videoCallable (s : MonitorState) (m : String) :
    (modeSet s m).1.videoCallable = s.videoCallable := by
  unfold modeSet; split <;> rfl

theorem monStep_of_disabled (s : MonitorState) (a : Nat) (env : EnvResult)
    (h : s.enabled = false) :
    monStep s a env = (s, [.envStep a], .ok env) := by
  unfold monStep monBeforeStep monAfterStep
  simp [h]

theorem monReset_of_disabled (s : MonitorState) (obs : Nat) (h : s.enabled = false) :
    monReset s obs = (s, [.envReset], obs) := by
  unfold monReset monBeforeReset monAfterReset
  simp [h]

theorem resetVideoRecorder_enabled_map (s : MonitorState) :
    (resetVideoRecorder s).1.videoRecorder.map VideoRecorderState.enabled =
      some (s.videoCallable (getEpisodeId s)) := by
  obtain ⟨vids, hEq⟩ := resetVideoRecorder_shape s
  rw [hEq]
  rfl

/-- Claim C1 (src/rltf/monitoring/monitor.py lines 164-178, 199-209):
_before_step raises error.ResetNeeded exactly when the monitor is enabled
and either the previous step ended the episode (done is truthy) or no
reset has happened yet (env_started false); after a successful enabled
reset env_started is true and done is false, so the next _before_step
succeeds. -/
theorem monitor_before_step_reset_needed (s : MonitorState) (a obs : Nat) :
    (monBeforeStep s a = .error .resetNeeded ↔
      s.enabled = true ∧ (doneTruthy s.done = true ∨ s.envStarted = false)) ∧
    (s.enabled = true →
      (monReset s obs).1.envStarted = true ∧ (monReset s obs).1.done = some false ∧
      monBeforeStep (monReset s obs).1 a = .ok [.statsBeforeStep a]) := by
  constructor
  · unfold monBeforeStep
    by_cases he : s.enabled <;> by_cases hd : doneTruthy s.done <;>
      by_cases hs : s.envStarted <;> simp [he, hd, hs]
  · intro he
    obtain ⟨vids, hEq⟩ := resetVideoRecorder_shape { s with envStarted := true, done := some false }
    have h1 : (monReset s obs).1 =
        (resetVideoRecorder { s with envStarted := true, done := some false }).1 := by
      unfold monReset monAfterReset
      simp [he]
    rw [h1, hEq]
    refine ⟨rfl, rfl, ?_⟩
    unfold monBeforeStep
    simp [he, doneTruthy]

/-- Claim C9 (src/rltf/monitoring/monitor.py lines 164-201): when
_enabled is false, step and reset are pure pass-throughs: the state is
returned unchanged in every field, only the wrapped env is invoked, the
env results are returned as-is, and no ResetNeeded check is made. -/
theorem monitor_disabled_passthrough (s : MonitorState) (a obs : Nat) (env : EnvResult)
    (h : s.enabled = false) :
    monStep s a env = (s, [.envStep a], .ok env) ∧
    monReset s obs = (s, [.envReset], obs) :=
  ⟨monStep_of_disabled s a env h, monReset_of_disabled s obs h⟩

/-- Claim C2 (src/rltf/monitoring/monitor.py lines 101-112, 164-209):
an enabled step calls stats_recorder.before_step(action) before env.step
and stats_recorder.after_step(obs, reward, done, info) with env.step's
results afterwards; an enabled reset calls stats_recorder.before_reset()
before env.reset and stats_recorder.after_reset(obs) with the returned
observation afterwards. -/
theorem monitor_stats_delegation_order (s : MonitorState) (a obs : Nat) (env : EnvResult)
    (h : s.enabled = true) :
    (doneTruthy s.done = false → s.envStarted = true →
      (monStep s a env).2.1 =
        [.statsBeforeStep a, .envStep a,
         .statsAfterStep env.obs env.reward env.done env.info, .videoCaptureFrame]) ∧
    ∃ rest, (monReset s obs).2.1 =
      [.statsBeforeReset, .envReset, .statsAfterReset obs] ++ rest := by
  constructor
  · intro hd hs
    unfold monStep monBeforeStep monAfterStep
    simp [h, hd, hs]
  · refine ⟨(resetVideoRecorder { s with envStarted := true, done := some false }).2, ?_⟩
    unfold monReset monBeforeReset monAfterReset
    simp [h]

/-- Claim C3 (src/rltf/monitoring/monitor.py lines 101-112, 181-190):
when step does not raise, it returns exactly the (obs, reward, done,
info) tuple produced by env.step, and reset always returns exactly the
observation produced by env.reset, enabled or not. -/
theorem monitor_preserves_returned_values (s : MonitorState) (a obs : Nat) (env : EnvResult) :
    (∀ out, (monStep s a env).2.2 = .ok out → out = env) ∧
    (monReset s obs).2.2 = obs := by
  constructor
  · intro out hout
    unfold monStep at hout
    cases hb : monBeforeStep s a with
    | error e => rw [hb] at hout; exact absurd hout (by simp)
    | ok evs =>
      rw [hb] at hout
      dsimp only at hout
      rw [monAfterStep_done] at hout
      have : ({ obs := env.obs, reward := env.reward, done := env.done,
                info := env.info } : EnvResult) = out := by
        exact Except.ok.inj hout
      exact this.symm
  · rfl

/-- Claim C5 (src/rltf/monitoring/monitor.py lines 115-126, 257-285):
the mode setter (also run by the constructor), get_total_steps,
get_episode_rewards and get_episode_lens accept exactly the strings t
and e; any other value raises error.Error, and the failed setter leaves
both _mode and stats_recorder.mode unchanged, while a valid value is
assigned to both. -/
theorem monitor_mode_validation (s : MonitorState) (m d e : String) :
    ((m ≠ "t" ∧ m ≠ "e") →
      modeSet s m = (s, some .genericError) ∧
      monitorInit d .vcNone m e = .error .genericError ∧
      getTotalSteps s m = .error .genericError ∧
      getEpisodeRewards s m = .error .genericError ∧
      getEpisodeLens s m = .error .genericError) ∧
    ((m = "t" ∨ m = "e") →
      (modeSet s m).2 = none ∧ (modeSet s m).1.mode = some m ∧
      (modeSet s m).1.statsRecorder.mode = some m) := by
  constructor
  · rintro ⟨h1, h2⟩
    refine ⟨?_, ?_, ?_, ?_, ?_⟩
    · unfold modeSet; simp [h1, h2]
    · unfold monitorInit getVideoCallable modeSet; simp [h1, h2]
    · unfold getTotalSteps; simp [h1, h2]
    · unfold getEpisodeRewards; simp [h1, h2]
    · unfold getEpisodeLens; simp [h1, h2]
  · rintro (rfl | rfl) <;> exact ⟨rfl, rfl, rfl⟩

/-- Claim C6 (src/rltf/models package init, lines 1-19): the registry
exposes exactly the 19 listed model names. -/
theorem rltf_models_registry_names :
    rltfModels =
      ["BLR", "BDQN", "BDQN_IDS", "BDQN_UCB", "BstrapDQN", "BstrapDQN_IDS",
       "BstrapDQN_UCB", "BstrapDQN_Ensemble", "BstrapQRDQN", "BstrapQRDQN_IDS",
       "C51", "DDPG", "DDQN", "BaseDQN", "DQN", "Model", "QRDQN", "QRDQNTS",
       "QRDDPG"] ∧
    rltfModels.length = 19 ∧ rltfModels.Nodup := by
  refine ⟨rfl, rfl, ?_⟩
  decide

theorem monClose_disables (s : MonitorState) : (monClose s).1.enabled = false := by
  unfold monClose
  by_cases h : s.enabled
  · simp [h]
  · simp at h
    simp [h]

theorem monClose_of_disabled (s : MonitorState) (h : s.enabled = false) :
    monClose s = (s, []) := by
  unfold monClose; simp [h]

theorem monClose_eq_of_none (s : MonitorState) (he : s.enabled = true)
    (hv : s.videoRecorder = none) :
    monClose s =
      ({ s with statsRecorder := { s.statsRecorder with closed := true },
                registered := false, enabled := false },
       [.statsSave,
        .writeManifest (s.logDir ++ "/rltf.monitor.manifest.json") (mkManifest s),
        .statsClose, .unregister]) := by
  simp [monClose, monSave, he, hv]

theorem monClose_eq_of_nonfunc (s : MonitorState) (vr : VideoRecorderState)
    (he : s.enabled = true) (hv : s.videoRecorder = some vr)
    (hf : functionalVR vr = false) :
    monClose s =
      ({ s with statsRecorder := { s.statsRecorder with closed := true },
                registered := false, enabled := false },
       [.statsSave,
        .writeManifest (s.logDir ++ "/rltf.monitor.manifest.json") (mkManifest s),
        .statsClose, .videoClose, .unregister]) := by
  simp [monClose, monSave, closeVideoRec, he, hv, hf]

theorem monClose_eq_of_func (s : MonitorState) (vr : VideoRecorderState)
    (he : s.enabled = true) (hv : s.videoRecorder = some vr)
    (hf : functionalVR vr = true) :
    monClose s =
      ({ s with videos := s.videos ++ [(vr.path, vr.metadataPath)],
                statsRecorder := { s.statsRecorder with closed := true },
                registered := false, enabled := false },
       [.statsSave,
        .writeManifest (s.logDir ++ "/rltf.monitor.manifest.json") (mkManifest s),
        .statsClose, .videoClose, .unregister]) := by
  simp [monClose, monSave, closeVideoRec, he, hv, hf]

theorem monClose_videos_off (t : MonitorState)
    (hvr : ∀ vr, t.videoRecorder = some vr → vr.enabled = false) :
    (monClose t).1.videos = t.videos := by
  by_cases he : t.enabled
  · cases hv : t.videoRecorder with
    | none => rw [monClose_eq_of_none t he hv]
    | some vr =>
      have hf : functionalVR vr = false := by
        unfold functionalVR
        rw [hvr vr hv]
        rfl
      rw [monClose_eq_of_nonfunc t vr he hv hf]
  · simp only [Bool.not_eq_true] at he
    rw [monClose_of_disabled t he]

/-- Claim C8 (src/rltf/monitoring/monitor.py lines 144-161, 252-254):
close is idempotent: the first call on an enabled monitor saves the data,
closes the stats recorder, closes the video recorder when one is open,
unregisters and disables the monitor, and any later call, including the
one from __del__, returns at once with no state change; on an
already-disabled monitor close is a no-op. -/
theorem monitor_close_idempotent (s : MonitorState) :
    (s.enabled = true →
      (monClose s).1.enabled = false ∧ (monClose s).1.registered = false ∧
      (monClose s).1.statsRecorder.closed = true ∧
      (monClose s).2 =
        [.statsSave,
         .writeManifest (s.logDir ++ "/rltf.monitor.manifest.json") (mkManifest s),
         .statsClose] ++
        (match s.videoRecorder with
         | some _ => [Event.videoClose]
         | none => []) ++
        [.unregister]) ∧
    monClose (monClose s).1 = ((monClose s).1, []) ∧
    monDel (monClose s).1 = ((monClose s).1, []) ∧
    (s.enabled = false → monClose s = (s, [])) := by
  refine ⟨?_, ?_, ?_, monClose_of_disabled s⟩
  · intro he
    cases hv : s.videoRecorder with
    | none =>
      rw [monClose_eq_of_none s he hv, hv]
      exact ⟨rfl, rfl, rfl, rfl⟩
    | some vr =>
      by_cases hf : functionalVR vr = true
      · rw [monClose_eq_of_func s vr he hv hf, hv]
        exact ⟨rfl, rfl, rfl, rfl⟩
      · rw [monClose_eq_of_nonfunc s vr he hv (by simpa using hf), hv]
        exact ⟨rfl, rfl, rfl, rfl⟩
  · exact monClose_of_disabled _ (monClose_disables s)
  · exact monClose_of_disabled _ (monClose_disables s)

/-- Claim C4 (src/rltf/monitoring/monitor.py lines 67-76, 212-241): with
video_callable=False the stored callable returns False for every episode
id, every recorder created by reset_video_recorder is disabled, no video
is ever appended to self.videos by reset, close or step, and a
video_callable that is neither None, False nor callable makes the
constructor raise error.Error. -/
theorem monitor_video_callable_false_disables (d m e : String) (t : MonitorState)
    (a obs : Nat) (env : EnvResult) :
    (∀ s', monitorInit d .vcFalse m e = .ok s' → ∀ n, s'.videoCallable n = false) ∧
    ((∀ n, t.videoCallable n = false) →
      (resetVideoRecorder t).1.videoRecorder.map VideoRecorderState.enabled = some false) ∧
    (videoOff t →
      (monReset t obs).1.videos = t.videos ∧ videoOff (monReset t obs).1 ∧
      (monClose t).1.videos = t.videos) ∧
    (monStep t a env).1.videos = t.videos ∧
    monitorInit d .vcOther m e = .error .genericError := by
  refine ⟨?_, ?_, ?_, monStep_videos t a env, rfl⟩
  · intro s' h n
    unfold monitorInit getVideoCallable at h
    dsimp only at h
    rcases hms : modeSet
        { enabled := false, registered := false, videos := [], mode := none,
          logDir := d, done := none, envStarted := false, envId := e,
          videoCallable := fun _ => false,
          statsRecorder := initStatsRecorder (d ++ "/data"),
          videoRecorder := none } m with ⟨s1, oe⟩
    rw [hms] at h
    cases oe with
    | some err => exact absurd h (by simp)
    | none =>
      have hs' := Except.ok.inj h
      have hvc : s1.videoCallable = fun _ => false := by
        have := modeSet_videoCallable
          { enabled := false, registered := false, videos := [], mode := none,
            logDir := d, done := none, envStarted := false, envId := e,
            videoCallable := fun _ => false,
            statsRecorder := initStatsRecorder (d ++ "/data"),
            videoRecorder := none } m
        rw [hms] at this
        exact this
      rw [← hs']
      show s1.videoCallable n = false
      rw [hvc]
  · intro hoff
    obtain ⟨vids, hEq⟩ := resetVideoRecorder_shape t
    rw [hEq]
    simp [hoff (getEpisodeId t)]
  · intro ⟨hvc, hvr⟩
    by_cases he : t.enabled
    · have s1off : ∀ vr, ({ t with envStarted := true, done := some false
          } : MonitorState).videoRecorder = some vr → vr.enabled = false := hvr
      have h1 : (monReset t obs).1 =
          (resetVideoRecorder { t with envStarted := true, done := some false }).1 := by
        unfold monReset monAfterReset
        simp [he]
      obtain ⟨vids, hEq⟩ :=
        resetVideoRecorder_shape { t with envStarted := true, done := some false }
      refine ⟨?_, ?_, ?_⟩
      · rw [h1]
        exact resetVideoRecorder_videos_off _ s1off
      · rw [h1, hEq]
        refine ⟨hvc, ?_⟩
        intro vr hvr2
        have : vr = { path := _, metadataPath := _, episodeId := _,
                      enabled := t.videoCallable
                        (getEpisodeId { t with envStarted := true, done := some false }),
                      broken := false } := (Option.some.inj hvr2).symm
        rw [this]
        exact hvc _
      · exact monClose_videos_off t hvr
    · simp at he
      rw [monReset_of_disabled t obs he, monClose_of_disabled t he]
      exact ⟨rfl, ⟨hvc, hvr⟩, rfl⟩

/-- Claim C7 (src/rltf/monitoring/monitor.py lines 129-141, 244-249):
save emits the stats save before writing the manifest
rltf.monitor.manifest.json in log_dir; the manifest's stats entry is
./basename(stats log_dir)/, its videos entries are the basenames of the
recorded files, its env_info holds the gym version and the env id, and
every path in it is relative. -/
theorem monitor_save_manifest_relative (s : MonitorState) :
    (monSave s).2 = [.statsSave,
      .writeManifest (s.logDir ++ "/rltf.monitor.manifest.json") (mkManifest s)] ∧
    (mkManifest s).stats = "./" ++ basename s.statsRecorder.logDir ++ "/" ∧
    (mkManifest s).videos = s.videos.map (fun p => (basename p.1, basename p.2)) ∧
    (mkManifest s).envInfo = ⟨gymVersionStr, s.envId⟩ ∧
    isAbsPath (mkManifest s).stats = false ∧
    ∀ p ∈ (mkManifest s).videos, isAbsPath p.1 = false ∧ isAbsPath p.2 = false := by
  refine ⟨rfl, rfl, rfl, rfl, isAbsPath_dotSlash _ _, ?_⟩
  intro p hp
  simp only [mkManifest, List.mem_map] at hp
  obtain ⟨q, hq, rfl⟩ := hp
  exact ⟨isAbsPath_basename q.1, isAbsPath_basename q.2⟩

/-- Claim C10 (src/rltf/monitoring/monitor.py lines 67-76, 212-232):
with video_callable=None the default schedule records exactly the
episodes whose id is divisible by 1000 (episode 0 included): the
recorder created at reset is enabled iff get_episode_id mod 1000 is 0. -/
theorem monitor_default_video_schedule (d m e : String) (t : MonitorState) :
    (∀ s', monitorInit d .vcNone m e = .ok s' →
      (∀ n, s'.videoCallable n = (n % 1000 == 0)) ∧ s'.videoCallable 0 = true) ∧
    ((∀ n, t.videoCallable n = (n % 1000 == 0)) →
      ((resetVideoRecorder t).1.videoRecorder.map VideoRecorderState.enabled = some true ↔
        getEpisodeId t % 1000 = 0)) := by
  constructor
  · intro s' h
    unfold monitorInit getVideoCallable at h
    dsimp only at h
    rcases hms : modeSet
        { enabled := false, registered := false, videos := [], mode := none,
          logDir := d, done := none, envStarted := false, envId := e,
          videoCallable := defaultVideoCallable,
          statsRecorder := initStatsRecorder (d ++ "/data"),
          videoRecorder := none } m with ⟨s1, oe⟩
    rw [hms] at h
    cases oe with
    | some err => exact absurd h (by simp)
    | none =>
      have hs' := Except.ok.inj h
      have hvc : s1.videoCallable = defaultVideoCallable := by
        have := modeSet_videoCallable
          { enabled := false, registered := false, videos := [], mode := none,
            logDir := d, done := none, envStarted := false, envId := e,
            videoCallable := defaultVideoCallable,
            statsRecorder := initStatsRecorder (d ++ "/data"),
            videoRecorder := none } m
        rw [hms] at this
        exact this
      constructor
      · intro n
        rw [← hs']
        show s1.videoCallable n = (n % 1000 == 0)
        rw [hvc]
        rfl
      · rw [← hs']
        show s1.videoCallable 0 = true
        rw [hvc]
        rfl
  · intro hvc
    rw [resetVideoRecorder_enabled_map t, hvc]
    constructor
    · intro h2
      exact beq_iff_eq.mp (Option.some.inj h2)
    · intro h2
      rw [beq_iff_eq.mpr h2]

/-! Concrete states used by the witness theorems -/

def sampleStats : StatsRecorderState := initStatsRecorder "logs/data"

def sampleMon : MonitorState :=
  { enabled := true, registered := true, videos := [], mode := some "t",
    logDir := "logs", done := none, envStarted := false, envId := "CartPole-v0",
    videoCallable := defaultVideoCallable,
    statsRecorder := sampleStats, videoRecorder := none }

def sampleReady : MonitorState :=
  { sampleMon with envStarted := true, done := some false }

def sampleDisabled : MonitorState :=
  { sampleMon with enabled := false }

def sampleOffMon : MonitorState :=
  { enabled := true, registered := true,
    videos := [("logs/a.mp4", "logs/a.meta.json")], mode := some "e",
    logDir := "logs", done := some false, envStarted := true, envId := "Env-v0",
    videoCallable := fun _ => false,
    statsRecorder := sampleStats,
    videoRecorder := some
      { path := "logs/v.mp4", metadataPath := "logs/v.meta.json",
        episodeId := 0, enabled := false, broken := false } }

def sampleEnv : EnvResult := { obs := 2, reward := 3, done := false, info := 4 }

/-- Witness for C1: a fresh enabled monitor raises on step and is
steppable after its first reset. -/
theorem monitor_before_step_reset_needed_w :
    monBeforeStep sampleMon 0 = .error .resetNeeded ∧
    monBeforeStep (monReset sampleMon 5).1 0 = .ok [.statsBeforeStep 0] :=
  ⟨(monitor_before_step_reset_needed sampleMon 0 5).1.mpr ⟨rfl, Or.inr rfl⟩,
   ((monitor_before_step_reset_needed sampleMon 0 5).2 rfl).2.2⟩

/-- Witness for C2 on a concrete steppable monitor. -/
theorem monitor_stats_delegation_order_w :
    (monStep sampleReady 1 sampleEnv).2.1 =
      [.statsBeforeStep 1, .envStep 1, .statsAfterStep 2 3 false 4,
       .videoCaptureFrame] ∧
    ∃ rest, (monReset sampleReady 5).2.1 =
      [.statsBeforeReset, .envReset, .statsAfterReset 5] ++ rest :=
  ⟨(monitor_stats_delegation_order sampleReady 1 5 sampleEnv rfl).1 rfl rfl,
   (monitor_stats_delegation_order sampleReady 1 5 sampleEnv rfl).2⟩

/-- Witness for C3 on a concrete step and reset. -/
theorem monitor_preserves_returned_values_w :
    sampleEnv = sampleEnv ∧ (monReset sampleReady 5).2.2 = 5 :=
  ⟨(monitor_preserves_returned_values sampleReady 1 5 sampleEnv).1 sampleEnv rfl,
   (monitor_preserves_returned_values sampleReady 1 5 sampleEnv).2⟩

/-- Witness for C4 on a monitor whose video callable always returns
False. -/
theorem monitor_video_callable_false_disables_w :
    (resetVideoRecorder sampleOffMon).1.videoRecorder.map VideoRecorderState.enabled =
      some false ∧
    (monReset sampleOffMon 3).1.videos = sampleOffMon.videos ∧
    monitorInit "logs" .vcOther "t" "Env-v0" = .error .genericError :=
  ⟨(monitor_video_callable_false_disables "logs" "t" "Env-v0" sampleOffMon 1 3
      sampleEnv).2.1 (fun _ => rfl),
   ((monitor_video_callable_false_disables "logs" "t" "Env-v0" sampleOffMon 1 3
      sampleEnv).2.2.1
     ⟨fun _ => rfl, fun vr h => by injection h with h2; rw [← h2]⟩).1,
   (monitor_video_callable_false_disables "logs" "t" "Env-v0" sampleOffMon 1 3
      sampleEnv).2.2.2.2⟩

/-- Witness for C5 at the invalid mode x and the valid mode e. -/
theorem monitor_mode_validation_w :
    modeSet sampleMon "x" = (sampleMon, some .genericError) ∧
    (modeSet sampleMon "e").1.mode = some "e" :=
  ⟨((monitor_mode_validation sampleMon "x" "logs" "Env-v0").1
      ⟨by decide, by decide⟩).1,
   ((monitor_mode_validation sampleMon "e" "logs" "Env-v0").2 (Or.inr rfl)).2.1⟩

/-- Witness for C7: concrete manifest paths are relative. -/
theorem monitor_save_manifest_relative_w :
    isAbsPath (mkManifest sampleOffMon).stats = false ∧
    isAbsPath ("a.mp4" : String) = false ∧
    isAbsPath ("a.meta.json" : String) = false :=
  ⟨(monitor_save_manifest_relative sampleOffMon).2.2.2.2.1,
   ((monitor_save_manifest_relative sampleOffMon).2.2.2.2.2 ("a.mp4", "a.meta.json")
      (by decide)).1,
   ((monitor_save_manifest_relative sampleOffMon).2.2.2.2.2 ("a.mp4", "a.meta.json")
      (by decide)).2⟩

/-- Witness for C8: closing a concrete enabled monitor disables it and a
second close is a no-op. -/
theorem monitor_close_idempotent_w :
    (monClose sampleOffMon).1.enabled = false ∧
    (monClose sampleOffMon).1.registered = false ∧
    (monClose sampleOffMon).2 =
      [.statsSave,
       .writeManifest ("logs" ++ "/rltf.monitor.manifest.json") (mkManifest sampleOffMon),
       .statsClose] ++ [.videoClose] ++ [.unregister] ∧
    monClose (monClose sampleOffMon).1 = ((monClose sampleOffMon).1, []) :=
  ⟨((monitor_close_idempotent sampleOffMon).1 rfl).1,
   ((monitor_close_idempotent sampleOffMon).1 rfl).2.1,
   ((monitor_close_idempotent sampleOffMon).1 rfl).2.2.2,
   (monitor_close_idempotent sampleOffMon).2.1⟩

/-- Witness for C9 on a concrete disabled monitor. -/
theorem monitor_disabled_passthrough_w :
    monStep sampleDisabled 1 sampleEnv = (sampleDisabled, [.envStep 1], .ok sampleEnv) ∧
    monReset sampleDisabled 5 = (sampleDisabled, [.envReset], 5) :=
  monitor_disabled_passthrough sampleDisabled 1 5 sampleEnv rfl

/-- Witness for C10: with the default schedule and episode id 0 the
created recorder is enabled. -/
theorem monitor_default_video_schedule_w :
    (resetVideoRecorder sampleMon).1.videoRecorder.map VideoRecorderState.enabled =
      some true :=
  ((monitor_default_video_schedule "logs" "t" "Env-v0" sampleMon).2 (fun _ => rfl)).mpr rfl

end Rltf
